/-
Verification of the Multi-Timeframe Trend & Decision Synthesis Engine
(TrendAgent / DecisionAgent of the Quant_Agent repository).

The Python source is shallowly embedded over exact rationals (ℚ).
Floating-point NaN values that arise from pandas rolling windows with
insufficient history are modelled as `none : Option ℚ`; a division whose
denominator is zero (which in pandas floats produces inf/NaN that always
collapses to NaN before it is consumed here) is likewise modelled as `none`.
Series are modelled positionally (a default integer index), matching the
row order of the input DataFrame.
-/
import Mathlib

set_option autoImplicit false

/- The Batteries rational arithmetic operations are `@[irreducible]`,
which blocks the definitional evaluation used by `decide`/`rfl` at
concrete inputs; lift that locally for this development. -/
unseal Rat.add Rat.mul Rat.inv Rat.sub

/-! ## Generic helpers -/

/-- Is `p` a (character-wise) prefix of `s`? -/
def listHasPre : List Char → List Char → Bool
  | [], _ => true
  | _ :: _, [] => false
  | p :: ps, c :: cs => p == c && listHasPre ps cs

/-- Is `p` a contiguous sublist of `s`? -/
def listHasSub (p : List Char) : List Char → Bool
  | [] => listHasPre p []
  | c :: cs => listHasPre p (c :: cs) || listHasSub p cs

/-- Python's substring containment test `pat in hay` for strings. -/
def strContains (hay pat : String) : Bool :=
  listHasSub pat.data hay.data

/-- Mean of a list of rationals (`pandas.Series.mean` on a complete window).
An empty list gives `0/0 = 0`; every call site guards emptiness. -/
def qMean (xs : List ℚ) : ℚ := xs.sum / (xs.length : ℚ)

/-- Mean of a window that may contain NaN (`none`) entries: any NaN entry
makes the whole mean NaN, as with `rolling(...).mean()` in pandas. -/
def optMean (xs : List (Option ℚ)) : Option ℚ :=
  if xs.all Option.isSome then some (qMean (xs.filterMap id)) else none

/-- `rolling(window := w).mean()` over a series: entry `i` is the mean of
entries `i - w + 1 .. i`, or NaN (`none`) when fewer than `w` entries exist. -/
def rollingMean (w : Nat) (xs : List (Option ℚ)) : List (Option ℚ) :=
  (List.range xs.length).map fun i =>
    if w ≤ i + 1 then optMean ((xs.drop (i + 1 - w)).take w) else none

/-- NaN-aware division: `none` if either operand is NaN or the denominator
is zero (the float inf/NaN cases, which all collapse to NaN downstream). -/
def optDiv (a b : Option ℚ) : Option ℚ :=
  match a, b with
  | some x, some y => if y = 0 then none else some (x / y)
  | _, _ => none

/-- A float comparison `x > c` where `x` may be NaN: NaN compares false. -/
def optGT (x : Option ℚ) (c : ℚ) : Bool :=
  match x with
  | some v => decide (c < v)
  | none => false

/-! ## Python data values and exceptions -/

/-- The Python exceptions that the engine's code can raise. -/
inductive PyErr where
  | valueError (msg : String)
  | keyError (key : String)
  | typeError (msg : String)
  | jsonDecodeError (msg : String)
deriving DecidableEq

/-- `str(e)` for the exceptions above (a `KeyError` renders its key quoted). -/
def PyErr.text : PyErr → String
  | .valueError msg => msg
  | .keyError key => "\x27" ++ key ++ "\x27"
  | .typeError msg => msg
  | .jsonDecodeError msg => msg

/-- Values produced by `json.loads`: null, booleans, numbers, strings,
arrays and objects (dicts; `json.loads` never yields duplicate keys). -/
inductive Json where
  | null : Json
  | bool : Bool → Json
  | num : ℚ → Json
  | str : String → Json
  | arr : List Json → Json
  | obj : List (String × Json) → Json

/-! ## TrendAgent (src/agents/trend_agent.py) -/

/-- One OHLCV row of the input DataFrame. -/
structure Bar where
  open_ : ℚ
  high : ℚ
  low : ℚ
  close : ℚ
  volume : ℚ
deriving DecidableEq

/-- The input DataFrame: a column schema plus its rows. -/
structure DataFrame where
  columns : List String
  rows : List Bar
deriving DecidableEq

/-- `BaseAgent.validate_data`: all five OHLCV columns must be present. -/
def requiredColumns : List String := ["Open", "High", "Low", "Close", "Volume"]

def validateData (df : DataFrame) : Bool :=
  requiredColumns.all fun col => df.columns.contains col

/-- `DataFrame.tail(n)`: the last `n` rows (all rows when fewer exist). -/
def tailRows (n : Nat) (rows : List Bar) : List Bar :=
  rows.drop (rows.length - n)

/-- Slope of the ordinary-least-squares fit of `prices` against the bar
index `0, 1, ...` (`scipy.stats.linregress`), computed exactly. -/
def linregressSlope (prices : List ℚ) : ℚ :=
  let n : ℚ := (prices.length : ℚ)
  let xs : List ℚ := (List.range prices.length).map fun i => (i : ℚ)
  let sx := xs.sum
  let sy := prices.sum
  let sxy := ((xs.zip prices).map fun p => p.1 * p.2).sum
  let sxx := (xs.map fun x => x * x).sum
  (n * sxy - sx * sy) / (n * sxx - sx * sx)

/-- Squared correlation coefficient of the same fit.  When the prices are
constant the denominator is zero; rational division then yields `0`, which
agrees with the `r = 0.0` guard inside `scipy.stats.linregress`. -/
def linregressR2 (prices : List ℚ) : ℚ :=
  let n : ℚ := (prices.length : ℚ)
  let xs : List ℚ := (List.range prices.length).map fun i => (i : ℚ)
  let sx := xs.sum
  let sy := prices.sum
  let sxy := ((xs.zip prices).map fun p => p.1 * p.2).sum
  let sxx := (xs.map fun x => x * x).sum
  let syy := (prices.map fun y => y * y).sum
  ((n * sxy - sx * sy) * (n * sxy - sx * sy)) /
    ((n * sxx - sx * sx) * (n * syy - sy * sy))

/-- Per-timeframe trend record (`TrendAgent._calculate_trend` result dict).
`strength := none` models the absence of the `"strength"` key in the
insufficient-data dict. -/
structure TrendResult where
  direction : String
  slope : ℚ
  rSquared : ℚ
  strength : Option String
deriving DecidableEq

/-- `TrendAgent._classify_trend_strength` (the slope argument is unused in
the source as well). -/
def classifyTrendStrength (_slopeAbs : ℚ) (rSquared : ℚ) : String :=
  if rSquared < 3 / 10 then "Weak"
  else if rSquared < 6 / 10 then "Moderate"
  else "Strong"

/-- `TrendAgent._calculate_trend`. -/
def calculateTrend (data : List Bar) : TrendResult :=
  if data.length < 3 then
    { direction := "Insufficient data", slope := 0, rSquared := 0, strength := none }
  else
    let prices := data.map Bar.close
    let slope := linregressSlope prices
    let r2 := linregressR2 prices
    let direction :=
      if slope > 1 / 100 then "Bullish"
      else if slope < -(1 / 100) then "Bearish"
      else "Neutral"
    { direction := direction, slope := slope, rSquared := r2,
      strength := some (classifyTrendStrength |slope| r2) }

/-- `TrendAgent._analyze_trends`: short = last 10 bars, medium = last 20,
long = all bars. -/
structure TrendTimeframes where
  shortTerm : TrendResult
  mediumTerm : TrendResult
  longTerm : TrendResult
deriving DecidableEq

def analyzeTrends (rows : List Bar) : TrendTimeframes :=
  { shortTerm := calculateTrend (tailRows 10 rows)
    mediumTerm := calculateTrend (tailRows 20 rows)
    longTerm := calculateTrend rows }

/-- `close_prices.iloc[-k]` (call sites guard `k ≤ length`).
A division by a zero close would give float inf/NaN in Python; in ℚ it
gives 0.  No claim depends on a zero close price. -/
def ilocNeg (xs : List ℚ) (k : Nat) : ℚ :=
  xs.getD (xs.length - k) 0

structure PriceMomentum where
  period1 : ℚ
  period5 : ℚ
  period10 : ℚ
  overall : String
deriving DecidableEq

/-- `TrendAgent._classify_momentum`. -/
def classifyMomentum (m : ℚ) : String :=
  if |m| > 5 then "Strong " ++ (if m > 0 then "Bullish" else "Bearish")
  else if |m| > 2 then "Moderate " ++ (if m > 0 then "Bullish" else "Bearish")
  else "Weak"

/-- `TrendAgent._calculate_price_momentum`. -/
def calculatePriceMomentum (rows : List Bar) : PriceMomentum :=
  let c := rows.map Bar.close
  let n := rows.length
  let m1 := if 2 ≤ n then (ilocNeg c 1 - ilocNeg c 2) / ilocNeg c 2 * 100 else 0
  let m5 := if 6 ≤ n then (ilocNeg c 1 - ilocNeg c 6) / ilocNeg c 6 * 100 else 0
  let m10 := if 11 ≤ n then (ilocNeg c 1 - ilocNeg c 11) / ilocNeg c 11 * 100 else 0
  { period1 := m1, period5 := m5, period10 := m10, overall := classifyMomentum m5 }

structure VolumeMomentum where
  trend : String
  ratio : ℚ
deriving DecidableEq

/-- `TrendAgent._calculate_volume_momentum`. -/
def calculateVolumeMomentum (rows : List Bar) : VolumeMomentum :=
  if rows.length < 10 then { trend := "Insufficient data", ratio := 1 }
  else
    let vols := rows.map Bar.volume
    let recent := qMean (vols.drop (vols.length - 5))
    let historical := if rows.length > 10 then qMean (vols.take (vols.length - 5)) else recent
    let ratio := if historical > 0 then recent / historical else 1
    let trend :=
      if ratio > 3 / 2 then "Increasing"
      else if ratio < 7 / 10 then "Decreasing"
      else "Stable"
    { trend := trend, ratio := ratio }

structure Acceleration where
  value : ℚ
  direction : String
deriving DecidableEq

/-- `TrendAgent._calculate_acceleration`: the last second finite difference
of the closes. -/
def calculateAcceleration (rows : List Bar) : Acceleration :=
  if rows.length < 3 then { value := 0, direction := "Insufficient data" }
  else
    let c := rows.map Bar.close
    let a := (ilocNeg c 1 - ilocNeg c 2) - (ilocNeg c 2 - ilocNeg c 3)
    let direction :=
      if a > 0 then "Accelerating Up"
      else if a < 0 then "Accelerating Down"
      else "Constant Velocity"
    { value := a, direction := direction }

structure MomentumAnalysis where
  priceMomentum : PriceMomentum
  volumeMomentum : VolumeMomentum
  acceleration : Acceleration
deriving DecidableEq

/-- `TrendAgent._analyze_momentum`. -/
def analyzeMomentum (rows : List Bar) : MomentumAnalysis :=
  { priceMomentum := calculatePriceMomentum rows
    volumeMomentum := calculateVolumeMomentum rows
    acceleration := calculateAcceleration rows }

/-- Each bar paired with its predecessor (`shift(1)`). -/
def withPrev (bars : List Bar) : List (Bar × Option Bar) :=
  bars.zip (none :: bars.map some)

/-- True range series.  For the first bar the shifted closes are NaN and
pandas' skipna row-max leaves `high - low`. -/
def trueRanges (bars : List Bar) : List ℚ :=
  (withPrev bars).map fun p =>
    match p.2 with
    | none => p.1.high - p.1.low
    | some prev =>
      max (p.1.high - p.1.low) (max |p.1.high - prev.close| |p.1.low - prev.close|)

/-- `+DM`: the up-move when it exceeds the down-move and is positive.  For
the first bar the NaN moves compare false and `np.where` yields 0. -/
def plusDMs (bars : List Bar) : List ℚ :=
  (withPrev bars).map fun p =>
    match p.2 with
    | none => 0
    | some prev =>
      let up := p.1.high - prev.high
      let down := prev.low - p.1.low
      if up > down ∧ up > 0 then up else 0

/-- `-DM`, symmetric to `plusDMs`. -/
def minusDMs (bars : List Bar) : List ℚ :=
  (withPrev bars).map fun p =>
    match p.2 with
    | none => 0
    | some prev =>
      let up := p.1.high - prev.high
      let down := prev.low - p.1.low
      if down > up ∧ down > 0 then down else 0

def atrSeries (bars : List Bar) : List (Option ℚ) :=
  rollingMean 14 ((trueRanges bars).map some)

def plusDISeries (bars : List Bar) : List (Option ℚ) :=
  (List.zip (rollingMean 14 ((plusDMs bars).map some)) (atrSeries bars)).map
    fun p => (optDiv p.1 p.2).map fun q => 100 * q

def minusDISeries (bars : List Bar) : List (Option ℚ) :=
  (List.zip (rollingMean 14 ((minusDMs bars).map some)) (atrSeries bars)).map
    fun p => (optDiv p.1 p.2).map fun q => 100 * q

/-- `DX = 100 * |+DI - -DI| / (+DI + -DI)`, NaN-propagating. -/
def dxSeries (bars : List Bar) : List (Option ℚ) :=
  (List.zip (plusDISeries bars) (minusDISeries bars)).map fun p =>
    match p.1, p.2 with
    | some pv, some mv =>
      if pv + mv = 0 then none else some (100 * |pv - mv| / (pv + mv))
    | _, _ => none

def adxSeries (bars : List Bar) : List (Option ℚ) :=
  rollingMean 14 (dxSeries bars)

/-- The trend-strength record.  `score := none` models a NaN score. -/
structure StrengthResult where
  score : Option ℚ
  classification : String
deriving DecidableEq

/-- `TrendAgent._calculate_trend_strength`. -/
def calculateTrendStrength (bars : List Bar) : StrengthResult :=
  if bars.length < 20 then { score := some 0, classification := "Insufficient data" }
  else
    let current := ((adxSeries bars).getLast?).join
    let classification :=
      if optGT current 50 then "Very Strong"
      else if optGT current 25 then "Strong"
      else if optGT current 15 then "Moderate"
      else "Weak"
    { score := current, classification := classification }

/-- Breakout record.  All fields but `status` are absent (`none`) in the
insufficient-data dict. -/
structure BreakoutResult where
  status : String
  strength : Option ℚ
  supportLevel : Option ℚ
  resistanceLevel : Option ℚ
  currentPrice : Option ℚ
deriving DecidableEq

/-- Minimum of a nonempty list of rationals (`Series.min`). -/
def qMin (xs : List ℚ) : ℚ :=
  xs.foldr min (xs.headI)

/-- Maximum of a nonempty list of rationals (`Series.max`). -/
def qMax (xs : List ℚ) : ℚ :=
  xs.foldr max (xs.headI)

/-- `TrendAgent._analyze_breakouts`. -/
def analyzeBreakouts (rows : List Bar) : BreakoutResult :=
  if rows.length < 20 then
    { status := "Insufficient data", strength := none, supportLevel := none,
      resistanceLevel := none, currentPrice := none }
  else
    let recent := tailRows 20 rows
    let support := qMin (recent.map Bar.low)
    let resistance := qMax (recent.map Bar.high)
    let currentPrice := ilocNeg (rows.map Bar.close) 1
    let status :=
      if currentPrice > resistance * (1001 / 1000) then "Resistance Breakout"
      else if currentPrice < support * (999 / 1000) then "Support Breakdown"
      else "None"
    let strength :=
      if status ≠ "None" then
        if status = "Resistance Breakout" then (currentPrice - resistance) / resistance * 100
        else (support - currentPrice) / support * 100
      else 0
    { status := status, strength := some strength, supportLevel := some support,
      resistanceLevel := some resistance, currentPrice := some currentPrice }

/-- Left-pad a digit string with zeros to `d` characters. -/
def padZeros (s : String) (d : Nat) : String :=
  String.mk (List.replicate (d - s.length) '0') ++ s

/-- Fixed-point rendering of a rational with `d` decimal digits,
approximating Python's float formatting (ties rounded up rather than to
even; no claim depends on the rendered text). -/
def formatFixed (q : ℚ) (d : Nat) : String :=
  let r : ℤ := round (q * ((10 : ℚ) ^ d))
  let sign := if r < 0 then "-" else ""
  let a := r.natAbs
  let ip := a / 10 ^ d
  let fp := a % 10 ^ d
  sign ++ toString ip ++ (if d = 0 then "" else "." ++ padZeros (toString fp) d)

/-- Rendering of a possibly-NaN value under a format specifier. -/
def formatFixedOpt (q : Option ℚ) (d : Nat) : String :=
  match q with
  | some v => formatFixed v d
  | none => "nan"

/-- Reading the `"strength"` key of a per-timeframe trend dict; the
insufficient-data dict lacks the key, so the read raises `KeyError`. -/
def strengthOf (t : TrendResult) : Except PyErr String :=
  match t.strength with
  | some s => .ok s
  | none => .error (.keyError "strength")

/-- Reading the `"strength"` key of a breakout dict. -/
def breakoutStrengthOf (b : BreakoutResult) : Except PyErr ℚ :=
  match b.strength with
  | some s => .ok s
  | none => .error (.keyError "strength")

/-- `TrendAgent._generate_trend_summary`.  The Python source writes the
two-character sequence backslash-n (an escaped backslash) between lines;
the embedding reproduces that literally. -/
def generateTrendSummary (t : TrendTimeframes) (m : MomentumAnalysis)
    (s : StrengthResult) (b : BreakoutResult) : Except PyErr String := do
  let st ← strengthOf t.shortTerm
  let sm ← strengthOf t.mediumTerm
  let sl ← strengthOf t.longTerm
  let summary :=
    "Trend Analysis Summary:\\n" ++
    "- Short-term trend: " ++ t.shortTerm.direction ++ " (" ++ st ++ ")\\n" ++
    "- Medium-term trend: " ++ t.mediumTerm.direction ++ " (" ++ sm ++ ")\\n" ++
    "- Long-term trend: " ++ t.longTerm.direction ++ " (" ++ sl ++ ")\\n" ++
    "- Price momentum: " ++ m.priceMomentum.overall ++ "\\n" ++
    "- Volume momentum: " ++ m.volumeMomentum.trend ++ "\\n" ++
    "- Price acceleration: " ++ m.acceleration.direction ++ "\\n" ++
    "- Trend strength: " ++ s.classification ++ " " ++
    "(Score: " ++ formatFixedOpt s.score 1 ++ ")\\n" ++
    "- Breakout status: " ++ b.status
  if b.status ≠ "None" ∧ b.status ≠ "Insufficient data" then do
    let bs ← breakoutStrengthOf b
    .ok (summary ++ " (Strength: " ++ formatFixed bs 2 ++ "%)")
  else
    .ok summary

/-- `TrendAgent._get_overall_direction`: weighted vote of the timeframe
directions plus a flat momentum bonus; the momentum test is Python's
substring containment on the momentum label. -/
def getOverallDirection (t : TrendTimeframes) (m : MomentumAnalysis) : String :=
  let step := fun (acc : ℚ × ℚ) (p : TrendResult × ℚ) =>
    if p.1.direction = "Bullish" then (acc.1 + p.2, acc.2)
    else if p.1.direction = "Bearish" then (acc.1, acc.2 + p.2)
    else acc
  let acc := [(t.shortTerm, (1 : ℚ) / 2), (t.mediumTerm, 3 / 10),
    (t.longTerm, 1 / 5)].foldl step (0, 0)
  let momentum := m.priceMomentum.overall
  let acc :=
    if strContains momentum "Bullish" then (acc.1 + 1 / 5, acc.2)
    else if strContains momentum "Bearish" then (acc.1, acc.2 + 1 / 5)
    else acc
  if acc.1 > acc.2 then "Bullish"
  else if acc.2 > acc.1 then "Bearish"
  else "Neutral"

/-- `len(set(directions))` for the three timeframe direction labels. -/
def setSize3 (a b c : String) : Nat :=
  if a = b then (if a = c then 1 else 2)
  else if a = c ∨ b = c then 2 else 3

/-- `TrendAgent._calculate_confidence`.  When the strength score is NaN
(`none`), in Python the NaN propagates through the sum and `min(1.0, nan)`
returns `1.0`, because `nan < 1.0` is false. -/
def calculateConfidence (t : TrendTimeframes) (m : MomentumAnalysis)
    (s : StrengthResult) : ℚ :=
  let alignment := setSize3 t.shortTerm.direction t.mediumTerm.direction
    t.longTerm.direction
  let f1 : ℚ := if alignment = 1 then 2 / 5 else if alignment = 2 then 1 / 5 else 0
  let consistency : ℚ :=
    1 - |m.priceMomentum.period1 - m.priceMomentum.period5| / 10
  let f3 : ℚ := max 0 consistency * (3 / 10)
  match s.score with
  | some sc => min 1 (f1 + sc / 100 * (3 / 10) + f3)
  | none => 1

/-- The dict returned by `TrendAgent.analyze`. -/
structure TrendReport where
  agent : String
  trendAnalysis : TrendTimeframes
  momentumAnalysis : MomentumAnalysis
  trendStrength : StrengthResult
  breakoutAnalysis : BreakoutResult
  summary : String
  direction : String
  confidence : ℚ
deriving DecidableEq

/-- `TrendAgent.analyze`: validates the column contract, runs the four
sub-analyses, builds the summary (which can raise `KeyError`) and
assembles the report. -/
def TrendAgent.analyze (df : DataFrame) : Except PyErr TrendReport :=
  if !validateData df then
    .error (.valueError
      "Invalid data format. Required columns: Open, High, Low, Close, Volume")
  else
    let trends := analyzeTrends df.rows
    let momentum := analyzeMomentum df.rows
    let strength := calculateTrendStrength df.rows
    let breakout := analyzeBreakouts df.rows
    match generateTrendSummary trends momentum strength breakout with
    | .error e => .error e
    | .ok summary =>
      .ok { agent := "TrendAgent", trendAnalysis := trends,
            momentumAnalysis := momentum, trendStrength := strength,
            breakoutAnalysis := breakout, summary := summary,
            direction := getOverallDirection trends momentum,
            confidence := calculateConfidence trends momentum strength }

/-! ## Python dict / value operations used by DecisionAgent -/

/-- First binding of key `k` in an object's field list (objects produced by
`json.loads` and by the code's own updates never hold duplicate keys). -/
def lookupField (fs : List (String × Json)) (k : String) : Option Json :=
  (fs.find? fun p => p.1 == k).map Prod.snd

/-- Python's `k in value` on a JSON value: key membership for dicts,
element equality for lists, substring containment for strings, and a
`TypeError` for the non-iterable values (numbers, booleans, `None`). -/
def pyContains (j : Json) (k : String) : Except PyErr Bool :=
  match j with
  | .obj fs => .ok (fs.any fun p => p.1 == k)
  | .arr xs => .ok (xs.any fun x => match x with | .str s => s == k | _ => false)
  | .str s => .ok (strContains s k)
  | _ => .error (.typeError "argument is not iterable")

/-- Python's `value[k]` for a string key: dict lookup (raising `KeyError`),
and a `TypeError` for every other JSON value. -/
def pyIndex (j : Json) (k : String) : Except PyErr Json :=
  match j with
  | .obj fs =>
    match lookupField fs k with
    | some v => .ok v
    | none => .error (.keyError k)
  | _ => .error (.typeError "value is not subscriptable by a string key")

/-- Python's `value[k] = v` dict assignment (functional update; the code
only assigns to values already known to be dicts). -/
def setKey (j : Json) (k : String) (v : Json) : Json :=
  match j with
  | .obj fs =>
    if fs.any fun p => p.1 == k then
      .obj (fs.map fun p => if p.1 == k then (k, v) else p)
    else
      .obj (fs ++ [(k, v)])
  | other => other

def digitsToNat (cs : List Char) : Nat :=
  cs.foldl (fun a c => a * 10 + (c.toNat - 48)) 0

/-- The numeric strings accepted by Python's `float()` (sign, digits,
optional fraction and exponent, surrounding whitespace; the inf/nan and
underscore forms are not modelled — no claim depends on them). -/
def parseDecimal (s : String) : Option ℚ :=
  let cs := s.trim.data
  let signAndRest : ℚ × List Char :=
    match cs with
    | '+' :: r => (1, r)
    | '-' :: r => (-1, r)
    | r => (1, r)
  let sign := signAndRest.1
  let cs1 := signAndRest.2
  let intPart := cs1.takeWhile Char.isDigit
  let afterInt := cs1.dropWhile Char.isDigit
  let fracAndRest : List Char × List Char :=
    match afterInt with
    | '.' :: r => (r.takeWhile Char.isDigit, r.dropWhile Char.isDigit)
    | r => ([], r)
  let fracPart := fracAndRest.1
  let afterFrac := fracAndRest.2
  if intPart = [] ∧ fracPart = [] then none
  else
    let expParsed : Bool × ℤ × List Char :=
      match afterFrac with
      | 'e' :: r | 'E' :: r =>
        let esignAndRest : ℤ × List Char :=
          match r with
          | '+' :: r2 => (1, r2)
          | '-' :: r2 => (-1, r2)
          | r2 => (1, r2)
        let ed := esignAndRest.2.takeWhile Char.isDigit
        let r3 := esignAndRest.2.dropWhile Char.isDigit
        if ed = [] then (false, 0, r3)
        else (true, esignAndRest.1 * (digitsToNat ed : ℤ), r3)
      | r => (true, 0, r)
    if !expParsed.1 ∨ expParsed.2.2 ≠ [] then none
    else
      let mantissa : ℚ := sign *
        ((digitsToNat intPart : ℚ) + (digitsToNat fracPart : ℚ) / (10 ^ fracPart.length))
      some (mantissa * (10 : ℚ) ^ expParsed.2.1)

/-- Python's `float(value)` on a JSON value: numbers pass through,
booleans coerce to 0/1, numeric strings parse (`ValueError` otherwise),
and `None`/lists/dicts raise `TypeError`. -/
def pyFloat (j : Json) : Except PyErr ℚ :=
  match j with
  | .num q => .ok q
  | .bool b => .ok (if b then 1 else 0)
  | .str s =>
    match parseDecimal s with
    | some q => .ok q
    | none => .error (.valueError ("could not convert string to float: " ++ s))
  | _ => .error (.typeError "float() argument must be a string or a real number")

/-- Python's `value in [str, ...]` membership (equality with each string;
non-string JSON values are equal to none of them). -/
def jsonInStrList (v : Json) (ss : List String) : Bool :=
  match v with
  | .str s => ss.contains s
  | _ => false

def hexDigitChar (n : Nat) : Char :=
  if n < 10 then Char.ofNat (48 + n) else Char.ofNat (87 + n)

/-- `json.dumps` escaping of one character (default `ensure_ascii`;
characters beyond the basic plane would need surrogate pairs, which no
string in the code contains). -/
def escapeJsonChar (c : Char) : String :=
  if c = '"' then "\\\""
  else if c = '\\' then "\\\\"
  else if c = '\n' then "\\n"
  else if c = '\t' then "\\t"
  else if c = '\r' then "\\r"
  else if c.toNat < 32 ∨ 126 < c.toNat then
    let n := c.toNat
    "\\u" ++ String.mk [hexDigitChar (n / 4096 % 16), hexDigitChar (n / 256 % 16),
      hexDigitChar (n / 16 % 16), hexDigitChar (n % 16)]
  else String.mk [c]

def renderJsonString (s : String) : String :=
  "\"" ++ String.join (s.data.map escapeJsonChar) ++ "\""

/-- Number rendering for `json.dumps`.  The engine only serializes the
integers 0 inside its fallback payloads, rendered as Python renders them;
non-integer rationals never reach `Json.dumps` in the embedded code. -/
def renderJsonNum (q : ℚ) : String :=
  if q.den = 1 then toString q.num
  else toString q.num ++ "/" ++ toString q.den

mutual

/-- `json.dumps` with its default separators. -/
def Json.dumps : Json → String
  | .null => "null"
  | .bool b => if b then "true" else "false"
  | .num q => renderJsonNum q
  | .str s => renderJsonString s
  | .arr xs => "[" ++ dumpsElems xs ++ "]"
  | .obj fs => "\x7b" ++ dumpsFields fs ++ "\x7d"

def dumpsElems : List Json → String
  | [] => ""
  | [x] => Json.dumps x
  | x :: y :: xs => Json.dumps x ++ ", " ++ dumpsElems (y :: xs)

def dumpsFields : List (String × Json) → String
  | [] => ""
  | [(k, v)] => renderJsonString k ++ ": " ++ Json.dumps v
  | (k, v) :: f :: fs =>
    renderJsonString k ++ ": " ++ Json.dumps v ++ ", " ++ dumpsFields (f :: fs)

end

/-! ## DecisionAgent (src/agents/decision_agent.py) -/

/-- The default model of `DecisionAgent.__init__`. -/
def defaultModelName : String := "moonshotai/kimi-k2-instruct-0905"

/-- `DecisionAgent._query_llm`'s test of the caught error text. -/
def isDecommissionedErr (err : String) : Bool :=
  strContains err "model_decommissioned" || strContains err "decommissioned"

def apiErrorMessage (err : String) : String :=
  if isDecommissionedErr err then
    "LLM API error: The selected model is no longer available. Update your configuration to use \x27moonshotai/kimi-k2-instruct-0905\x27."
  else
    "LLM API error: " ++ err

def apiKeyFactors (err : String) : List String :=
  if isDecommissionedErr err then ["API_ERROR", "MODEL_DECOMMISSIONED"]
  else ["API_ERROR"]

/-- The fallback payload `_query_llm` serializes on a service failure. -/
def apiFallbackJson (err : String) : Json :=
  .obj [("decision", .str "HOLD"),
        ("confidence", .num 0),
        ("justification", .str (apiErrorMessage err)),
        ("risk_level", .str "HIGH"),
        ("key_factors", .arr ((apiKeyFactors err).map Json.str)),
        ("stop_loss_suggestion", .num 0),
        ("take_profit_suggestion", .num 0)]

/-- `DecisionAgent._query_llm`: the external call either returns the
message content or raises; any raised error is converted in place to the
serialized fallback payload. -/
def queryLlm (behavior : Except String String) : String :=
  match behavior with
  | .ok content => content
  | .error err => Json.dumps (apiFallbackJson err)

/-- The response cleaning of `DecisionAgent._parse_llm_response`
(strip, remove an optional code fence, strip again). -/
def cleanResponse (response : String) : String :=
  let c := response.trim
  let c := if c.startsWith "```json" then c.drop 7 else c
  let c := if c.endsWith "```" then c.dropRight 3 else c
  c.trim

def requiredFields : List String := ["decision", "confidence", "justification", "risk_level"]

/-- The required-field loop: `ValueError` on the first missing field
(`pyContains` itself may raise `TypeError` on non-iterable values). -/
def checkRequired (d : Json) : List String → Except PyErr Unit
  | [] => .ok ()
  | f :: rest => do
    let present ← pyContains d f
    if present then checkRequired d rest
    else .error (.valueError ("Missing required field: " ++ f))

def validDecisions : List String := ["LONG", "SHORT", "HOLD"]

def validRiskLevels : List String := ["LOW", "MEDIUM", "HIGH"]

/-- The validation body of `_parse_llm_response` after `json.loads`:
field presence, decision coercion, confidence coercion and clamping,
risk-level coercion, defaults for the three optional fields. -/
def validateDecision (d0 : Json) : Except PyErr Json := do
  checkRequired d0 requiredFields
  let dec ← pyIndex d0 "decision"
  let d1 := if jsonInStrList dec validDecisions then d0
    else setKey d0 "decision" (.str "HOLD")
  let confJ ← pyIndex d1 "confidence"
  let conf ← pyFloat confJ
  let d2 := setKey d1 "confidence" (.num (max 0 (min 1 conf)))
  let risk ← pyIndex d2 "risk_level"
  let d3 := if jsonInStrList risk validRiskLevels then d2
    else setKey d2 "risk_level" (.str "MEDIUM")
  let hasKF ← pyContains d3 "key_factors"
  let d4 := if hasKF then d3 else setKey d3 "key_factors" (.arr [])
  let hasSL ← pyContains d4 "stop_loss_suggestion"
  let d5 := if hasSL then d4 else setKey d4 "stop_loss_suggestion" (.num 0)
  let hasTP ← pyContains d5 "take_profit_suggestion"
  let d6 := if hasTP then d5 else setKey d5 "take_profit_suggestion" (.num 0)
  .ok d6

/-- The safe-fallback dict of `_parse_llm_response`'s `except` clause. -/
def parseFallbackJson (response : String) (e : PyErr) : Json :=
  .obj [("decision", .str "HOLD"),
        ("confidence", .num 0),
        ("justification", .str ("Failed to parse LLM response: " ++ e.text ++
          ". Response: " ++ response.take 200 ++ "...")),
        ("risk_level", .str "HIGH"),
        ("key_factors", .arr [.str "PARSING_ERROR"]),
        ("stop_loss_suggestion", .num 0),
        ("take_profit_suggestion", .num 0)]

/-- The `except` clause catches exactly `json.JSONDecodeError`,
`ValueError` and `KeyError`; a `TypeError` is not caught. -/
def isCaughtByParse (e : PyErr) : Bool :=
  match e with
  | .typeError _ => false
  | _ => true

/-- The `try` body of `_parse_llm_response`: clean, `json.loads`
(modelled by the `loads` parameter), then validate. -/
def parseAttempt (loads : String → Except String Json) (response : String) :
    Except PyErr Json := do
  let cleaned := cleanResponse response
  let d ← match loads cleaned with
    | .ok j => Except.ok j
    | .error m => Except.error (PyErr.jsonDecodeError m)
  validateDecision d

/-- `DecisionAgent._parse_llm_response`. -/
def parseLlmResponse (loads : String → Except String Json) (response : String) :
    Except PyErr Json :=
  match parseAttempt loads response with
  | .ok d => .ok d
  | .error e =>
    if isCaughtByParse e then .ok (parseFallbackJson response e) else .error e

/-- The fields of the IndicatorAgent report that the prompt reads. -/
structure IndicatorReport where
  summary : String
  forecast : String
  evidence : String
  trigger : String

/-- The fields of the PatternAgent report that the prompt reads. -/
structure PatternReport where
  patternDescription : String
  visualSummary : String

/-- The fields of the TrendAgent report that the prompt reads. -/
structure TrendReportInput where
  summary : String
  direction : String
  confidence : ℚ

def IndicatorReport.toJson (r : IndicatorReport) : Json :=
  .obj [("summary", .str r.summary), ("forecast", .str r.forecast),
        ("evidence", .str r.evidence), ("trigger", .str r.trigger)]

def PatternReport.toJson (r : PatternReport) : Json :=
  .obj [("pattern_description", .str r.patternDescription),
        ("visual_summary", .str r.visualSummary)]

def TrendReportInput.toJson (r : TrendReportInput) : Json :=
  .obj [("summary", .str r.summary), ("direction", .str r.direction),
        ("confidence", .num r.confidence)]

/-- `DecisionAgent._construct_decision_prompt`. -/
def constructDecisionPrompt (ind : IndicatorReport) (pat : PatternReport)
    (tr : TrendReportInput) (symbol : String) : String :=
  "You are a professional quantitative trading analyst making high-frequency trading decisions. \nAnalyze the following comprehensive market data for "
  ++ symbol ++
  " and provide a structured trading decision.\n\n=== TECHNICAL INDICATORS ANALYSIS ===\n"
  ++ ind.summary ++
  "\n\nIndicator Forecast: " ++ ind.forecast ++
  "\nEvidence: " ++ ind.evidence ++
  "\nTrigger: " ++ ind.trigger ++
  "\n\n=== CHART PATTERN ANALYSIS ===\n" ++ pat.patternDescription ++
  "\n\nVisual Summary: " ++ pat.visualSummary ++
  "\n\n=== TREND ANALYSIS ===\n" ++ tr.summary ++
  "\n\nOverall Direction: " ++ tr.direction ++
  "\nConfidence: " ++ formatFixed tr.confidence 2 ++
  "\n\n=== DECISION REQUIREMENTS ===\nBased on the above analysis, provide a trading decision following these guidelines:\n\n1. Consider all three analyses with appropriate weights:\n   - Technical Indicators: 30%\n   - Chart Patterns: 25% \n   - Trend Analysis: 45%\n\n2. Account for risk management:\n   - Only recommend LONG/SHORT if confidence is reasonable\n   - Consider conflicting signals\n   - Evaluate market volatility\n\n3. Provide clear justification for your decision\n\nRespond ONLY with a valid JSON object in this exact format:\n\x7b\n    \"decision\": \"LONG\" | \"SHORT\" | \"HOLD\",\n    \"confidence\": 0.0-1.0,\n    \"justification\": \"Clear explanation of the decision reasoning\",\n    \"risk_level\": \"LOW\" | \"MEDIUM\" | \"HIGH\",\n    \"key_factors\": [\"factor1\", \"factor2\", \"factor3\"],\n    \"stop_loss_suggestion\": number,\n    \"take_profit_suggestion\": number\n\x7d\n\nEnsure the JSON is valid and complete."

/-- `DecisionAgent.analyze`.  The external service is the injected
`behavior` (the message content, or the raised error's text); `loads`
injects Python's `json.loads` on the cleaned response text. -/
def DecisionAgent.analyze (behavior : String → Except String String)
    (loads : String → Except String Json)
    (indicator : IndicatorReport) (pat : PatternReport)
    (trend : TrendReportInput) (symbol : String) : Except PyErr Json :=
  let prompt := constructDecisionPrompt indicator pat trend symbol
  let llmResponse := queryLlm (behavior prompt)
  match parseLlmResponse loads llmResponse with
  | .error e => .error e
  | .ok d =>
    .ok (setKey (setKey (setKey d "agent" (.str "DecisionAgent"))
      "symbol" (.str symbol))
      "input_analyses" (.obj [("indicator", indicator.toJson),
        ("pattern", pat.toJson), ("trend", trend.toJson)]))

/-! ## Definitions taken from the specification's wording (for refinement
claims; each is compared against the corresponding source embedding) -/

/-- Spec wording (C3): the timeframe-agreement bonus is 0.4 if all three
directions are identical, 0.2 if exactly two agree, 0 otherwise. -/
def specAgreementBonus (d1 d2 d3 : String) : ℚ :=
  if d1 = d2 ∧ d2 = d3 then 2 / 5
  else if d1 = d2 ∨ d1 = d3 ∨ d2 = d3 then 1 / 5
  else 0

/-- Spec wording (C3): sum of the agreement bonus, the strength
contribution `(score / 100) × 0.3` and the momentum-consistency
contribution `max(0, 1 − |m1 − m5| / 10) × 0.3`, capped above at 1.
A NaN score (`none`) propagates through the float sum, and Python's
`min(1.0, nan)` evaluates to 1. -/
def specConfidence (d1 d2 d3 : String) (m1 m5 : ℚ) (score : Option ℚ) : ℚ :=
  match score with
  | some s =>
    min 1 (specAgreementBonus d1 d2 d3 + s / 100 * (3 / 10) +
      max 0 (1 - |m1 - m5| / 10) * (3 / 10))
  | none => 1

/-- Spec wording (C7): weighted vote — Bullish/Bearish timeframe
directions add 0.5/0.3/0.2 to their side, the 5-bar momentum label adds a
flat 0.2 to the side it favors, the strictly higher score wins, ties are
Neutral. -/
def specVote (dShort dMedium dLong momLabel : String) : String :=
  let bull : ℚ :=
    (if dShort = "Bullish" then 1 / 2 else 0) +
    (if dMedium = "Bullish" then 3 / 10 else 0) +
    (if dLong = "Bullish" then 1 / 5 else 0) +
    (if strContains momLabel "Bullish" then 1 / 5 else 0)
  let bear : ℚ :=
    (if dShort = "Bearish" then 1 / 2 else 0) +
    (if dMedium = "Bearish" then 3 / 10 else 0) +
    (if dLong = "Bearish" then 1 / 5 else 0) +
    (if strContains momLabel "Bearish" then 1 / 5 else 0)
  if bull > bear then "Bullish"
  else if bear > bull then "Bearish"
  else "Neutral"

/-- Spec wording (C8): the strength classification thresholds. -/
def specStrengthClass (score : Option ℚ) : String :=
  if optGT score 50 then "Very Strong"
  else if optGT score 25 then "Strong"
  else if optGT score 15 then "Moderate"
  else "Weak"

/-! ## Helper lemmas -/

/-- Field-wise inversion of a successful `TrendAgent.analyze` call. -/
theorem analyze_ok_fields (df : DataFrame) (r : TrendReport)
    (h : TrendAgent.analyze df = .ok r) :
    r.trendAnalysis = analyzeTrends df.rows ∧
    r.momentumAnalysis = analyzeMomentum df.rows ∧
    r.trendStrength = calculateTrendStrength df.rows ∧
    r.direction = getOverallDirection (analyzeTrends df.rows) (analyzeMomentum df.rows) ∧
    r.confidence = calculateConfidence (analyzeTrends df.rows) (analyzeMomentum df.rows)
      (calculateTrendStrength df.rows) := by
  unfold TrendAgent.analyze at h
  split at h
  · exact Except.noConfusion h
  · dsimp only [] at h
    split at h
    · exact Except.noConfusion h
    · injection h with h'
      subst h'
      exact ⟨rfl, rfl, rfl, rfl, rfl⟩

theorem optMean_nonneg (l : List (Option ℚ)) (v : ℚ)
    (hl : ∀ x ∈ l, ∀ q : ℚ, x = some q → 0 ≤ q) (hv : optMean l = some v) :
    0 ≤ v := by
  unfold optMean at hv
  split at hv
  · injection hv with hv'
    subst hv'
    unfold qMean
    apply div_nonneg
    · apply List.sum_nonneg
      intro y hy
      rcases List.mem_filterMap.mp hy with ⟨x, hx, hxy⟩
      exact hl x hx y hxy
    · exact Nat.cast_nonneg _
  · exact Option.noConfusion hv

theorem rollingMean_nonneg (w : Nat) (xs : List (Option ℚ))
    (hxs : ∀ x ∈ xs, ∀ q : ℚ, x = some q → 0 ≤ q) :
    ∀ y ∈ rollingMean w xs, ∀ v : ℚ, y = some v → 0 ≤ v := by
  intro y hy v hv
  unfold rollingMean at hy
  rcases List.mem_map.mp hy with ⟨i, _, hyi⟩
  subst hv
  by_cases hw : w ≤ i + 1
  · rw [if_pos hw] at hyi
    refine optMean_nonneg _ v ?_ hyi
    intro x hx q hq
    exact hxs x (List.drop_subset _ _ (List.take_subset _ _ hx)) q hq
  · rw [if_neg hw] at hyi
    exact Option.noConfusion hyi

/-- Lifting a list of plain values to the NaN-aware form preserves
non-negativity facts. -/
theorem mapSome_nonneg (l : List ℚ) (h : ∀ q ∈ l, 0 ≤ q) :
    ∀ x ∈ l.map Option.some, ∀ q : ℚ, x = some q → 0 ≤ q := by
  intro x hx q hq
  rcases List.mem_map.mp hx with ⟨a, ha, hax⟩
  subst hax
  injection hq with hq'
  subst hq'
  exact h a ha

/-- All true ranges are non-negative provided each bar has `low ≤ high`
(only the first bar needs the hypothesis; for later bars the absolute
shifted-close terms dominate). -/
theorem trueRanges_nonneg (bars : List Bar) (h : ∀ b ∈ bars, b.low ≤ b.high) :
    ∀ q ∈ trueRanges bars, 0 ≤ q := by
  intro q hq
  unfold trueRanges at hq
  rcases List.mem_map.mp hq with ⟨p, hp, hpq⟩
  obtain ⟨b, pp⟩ := p
  unfold withPrev at hp
  have hb : b ∈ bars := (List.of_mem_zip hp).1
  cases pp with
  | none =>
    simp only [] at hpq
    subst hpq
    exact sub_nonneg.mpr (h b hb)
  | some prev =>
    simp only [] at hpq
    subst hpq
    exact le_trans (abs_nonneg _) (le_trans (le_max_right _ _) (le_max_right _ _))

theorem plusDMs_nonneg (bars : List Bar) : ∀ q ∈ plusDMs bars, 0 ≤ q := by
  intro q hq
  unfold plusDMs at hq
  rcases List.mem_map.mp hq with ⟨p, _, hpq⟩
  obtain ⟨b, pp⟩ := p
  cases pp with
  | none => simp only [] at hpq; subst hpq; exact le_refl 0
  | some prev =>
    simp only [] at hpq
    split at hpq <;> subst hpq
    · rename_i hcond
      exact le_of_lt hcond.2
    · exact le_refl 0

theorem minusDMs_nonneg (bars : List Bar) : ∀ q ∈ minusDMs bars, 0 ≤ q := by
  intro q hq
  unfold minusDMs at hq
  rcases List.mem_map.mp hq with ⟨p, _, hpq⟩
  obtain ⟨b, pp⟩ := p
  cases pp with
  | none => simp only [] at hpq; subst hpq; exact le_refl 0
  | some prev =>
    simp only [] at hpq
    split at hpq <;> subst hpq
    · rename_i hcond
      exact le_of_lt hcond.2
    · exact le_refl 0

/-- A defined (non-NaN) `+DI`/`-DI` entry is non-negative. -/
theorem diSeries_nonneg (dms : List ℚ) (bars : List Bar)
    (hdm : ∀ q ∈ dms, 0 ≤ q) (h : ∀ b ∈ bars, b.low ≤ b.high) :
    ∀ y ∈ (List.zip (rollingMean 14 (dms.map some)) (atrSeries bars)).map
      (fun p => (optDiv p.1 p.2).map fun q => 100 * q),
      ∀ v : ℚ, y = some v → 0 ≤ v := by
  intro y hy v hv
  subst hv
  rcases List.mem_map.mp hy with ⟨p, hp, hpy⟩
  obtain ⟨a, t⟩ := p
  have ha : a ∈ rollingMean 14 (dms.map some) := (List.of_mem_zip hp).1
  have ht : t ∈ atrSeries bars := (List.of_mem_zip hp).2
  unfold optDiv at hpy
  cases a with
  | none => exact Option.noConfusion hpy
  | some av =>
    cases t with
    | none => exact Option.noConfusion hpy
    | some tv =>
      simp only [] at hpy
      split at hpy
      · exact Option.noConfusion hpy
      · rename_i htv
        injection hpy with hpy'
        have hav : 0 ≤ av := rollingMean_nonneg 14 _ (mapSome_nonneg dms hdm) _ ha av rfl
        have htv0 : 0 ≤ tv := by
          unfold atrSeries at ht
          exact rollingMean_nonneg 14 _ (mapSome_nonneg _ (trueRanges_nonneg bars h)) _ ht tv rfl
        have : (0 : ℚ) ≤ av / tv := div_nonneg hav htv0
        rw [← hpy']
        positivity

/-- A defined (non-NaN) DX entry is non-negative. -/
theorem dxSeries_nonneg (bars : List Bar) (h : ∀ b ∈ bars, b.low ≤ b.high) :
    ∀ y ∈ dxSeries bars, ∀ v : ℚ, y = some v → 0 ≤ v := by
  intro y hy v hv
  subst hv
  unfold dxSeries at hy
  rcases List.mem_map.mp hy with ⟨p, hp, hpy⟩
  obtain ⟨a, b⟩ := p
  have ha : a ∈ plusDISeries bars := (List.of_mem_zip hp).1
  have hb : b ∈ minusDISeries bars := (List.of_mem_zip hp).2
  cases a with
  | none => exact Option.noConfusion hpy
  | some pv =>
    cases b with
    | none => exact Option.noConfusion hpy
    | some mv =>
      simp only [] at hpy
      split at hpy
      · exact Option.noConfusion hpy
      · rename_i hsum
        injection hpy with hpy'
        have hpv : 0 ≤ pv := by
          unfold plusDISeries at ha
          exact diSeries_nonneg (plusDMs bars) bars (plusDMs_nonneg bars) h _ ha pv rfl
        have hmv : 0 ≤ mv := by
          unfold minusDISeries at hb
          exact diSeries_nonneg (minusDMs bars) bars (minusDMs_nonneg bars) h _ hb mv rfl
        have hpos : 0 < pv + mv := lt_of_le_of_ne (by linarith) (Ne.symm hsum)
        rw [← hpy']
        positivity

/-- A defined (non-NaN) trend-strength score is non-negative whenever
every bar satisfies `low ≤ high`. -/
theorem strengthScore_nonneg (bars : List Bar) (h : ∀ b ∈ bars, b.low ≤ b.high) :
    ∀ sc : ℚ, (calculateTrendStrength bars).score = some sc → 0 ≤ sc := by
  intro sc hsc
  unfold calculateTrendStrength at hsc
  split at hsc
  · simp only [] at hsc
    injection hsc with hsc'
    subst hsc'
    exact le_refl 0
  · simp only [] at hsc
    have hlast : (adxSeries bars).getLast? = some (some sc) := by
      rcases hj : (adxSeries bars).getLast? with _ | x
      · rw [hj] at hsc; exact Option.noConfusion hsc
      · rw [hj] at hsc
        cases x with
        | none => exact Option.noConfusion hsc
        | some w =>
          injection hsc with hsc'
          subst hsc'
          rfl
    have hmem : some sc ∈ adxSeries bars := by
      rcases List.mem_getLast?_eq_getLast (Option.mem_def.mpr hlast) with ⟨hne, heq⟩
      rw [heq]
      exact List.getLast_mem hne
    exact rollingMean_nonneg 14 (dxSeries bars) (dxSeries_nonneg bars h) _ hmem sc rfl

theorem calculateConfidence_le_one (t : TrendTimeframes) (m : MomentumAnalysis)
    (s : StrengthResult) : calculateConfidence t m s ≤ 1 := by
  unfold calculateConfidence
  split
  · exact min_le_left _ _
  · exact le_refl 1

theorem calculateConfidence_nonneg (t : TrendTimeframes) (m : MomentumAnalysis)
    (s : StrengthResult) (hs : ∀ sc : ℚ, s.score = some sc → 0 ≤ sc) :
    0 ≤ calculateConfidence t m s := by
  unfold calculateConfidence
  split
  · rename_i sc hsc
    refine le_min (by norm_num) ?_
    have h1 : (0 : ℚ) ≤
        (if setSize3 t.shortTerm.direction t.mediumTerm.direction t.longTerm.direction = 1
          then 2 / 5
          else if setSize3 t.shortTerm.direction t.mediumTerm.direction t.longTerm.direction = 2
            then 1 / 5 else 0) := by
      split_ifs <;> norm_num
    have h2 : (0 : ℚ) ≤ sc / 100 * (3 / 10) :=
      mul_nonneg (div_nonneg (hs sc hsc) (by norm_num)) (by norm_num)
    have h3 : (0 : ℚ) ≤
        max 0 (1 - |m.priceMomentum.period1 - m.priceMomentum.period5| / 10) * (3 / 10) :=
      mul_nonneg (le_max_left _ _) (by norm_num)
    linarith
  · norm_num

/-- The source confidence computation agrees everywhere with the formula
as the specification words it. -/
theorem calculateConfidence_eq_spec (t : TrendTimeframes) (m : MomentumAnalysis)
    (s : StrengthResult) :
    calculateConfidence t m s =
      specConfidence t.shortTerm.direction t.mediumTerm.direction t.longTerm.direction
        m.priceMomentum.period1 m.priceMomentum.period5 s.score := by
  obtain ⟨sc, cls⟩ := s
  unfold calculateConfidence specConfidence
  cases sc with
  | none => rfl
  | some v =>
    simp only []
    unfold setSize3 specAgreementBonus
    by_cases h12 : t.shortTerm.direction = t.mediumTerm.direction <;>
      by_cases h13 : t.shortTerm.direction = t.longTerm.direction <;>
      by_cases h23 : t.mediumTerm.direction = t.longTerm.direction <;>
      simp_all


/-- The per-timeframe direction label takes only four values. -/
theorem calculateTrend_direction_cases (data : List Bar) :
    (calculateTrend data).direction = "Insufficient data" ∨
    (calculateTrend data).direction = "Bullish" ∨
    (calculateTrend data).direction = "Bearish" ∨
    (calculateTrend data).direction = "Neutral" := by
  unfold calculateTrend
  by_cases h1 : data.length < 3
  · rw [if_pos h1]
    exact Or.inl rfl
  · rw [if_neg h1]
    dsimp only []
    by_cases h2 : linregressSlope (data.map Bar.close) > 1 / 100
    · rw [if_pos h2]
      exact Or.inr (Or.inl rfl)
    · rw [if_neg h2]
      by_cases h3 : linregressSlope (data.map Bar.close) < -(1 / 100)
      · rw [if_pos h3]
        exact Or.inr (Or.inr (Or.inl rfl))
      · rw [if_neg h3]
        exact Or.inr (Or.inr (Or.inr rfl))

/-- The momentum classifier produces only five labels. -/
theorem classifyMomentum_label_cases (q : ℚ) :
    classifyMomentum q = "Strong Bullish" ∨ classifyMomentum q = "Strong Bearish" ∨
    classifyMomentum q = "Moderate Bullish" ∨ classifyMomentum q = "Moderate Bearish" ∨
    classifyMomentum q = "Weak" := by
  unfold classifyMomentum
  split_ifs <;> simp

theorem calculatePriceMomentum_overall_shape (rows : List Bar) :
    ∃ q : ℚ, (calculatePriceMomentum rows).overall = classifyMomentum q := by
  refine ⟨if 6 ≤ rows.length then
    (ilocNeg (rows.map Bar.close) 1 - ilocNeg (rows.map Bar.close) 6) /
      ilocNeg (rows.map Bar.close) 6 * 100 else 0, ?_⟩
  rfl

/-- The weighted vote expressed over the three direction labels and the
momentum label alone; definitionally equal to `getOverallDirection`. -/
def voteCore (dShort dMedium dLong momLabel : String) : String :=
  let step := fun (acc : ℚ × ℚ) (p : String × ℚ) =>
    if p.1 = "Bullish" then (acc.1 + p.2, acc.2)
    else if p.1 = "Bearish" then (acc.1, acc.2 + p.2)
    else acc
  let acc := [(dShort, (1 : ℚ) / 2), (dMedium, 3 / 10), (dLong, 1 / 5)].foldl step (0, 0)
  let acc :=
    if strContains momLabel "Bullish" then (acc.1 + 1 / 5, acc.2)
    else if strContains momLabel "Bearish" then (acc.1, acc.2 + 1 / 5)
    else acc
  if acc.1 > acc.2 then "Bullish"
  else if acc.2 > acc.1 then "Bearish"
  else "Neutral"

theorem getOverallDirection_eq_voteCore (t : TrendTimeframes) (m : MomentumAnalysis) :
    getOverallDirection t m =
      voteCore t.shortTerm.direction t.mediumTerm.direction t.longTerm.direction
        m.priceMomentum.overall := rfl

theorem voteCore_eq_specVote (d1 d2 d3 lbl : String)
    (hs : d1 = "Insufficient data" ∨ d1 = "Bullish" ∨ d1 = "Bearish" ∨ d1 = "Neutral")
    (hm : d2 = "Insufficient data" ∨ d2 = "Bullish" ∨ d2 = "Bearish" ∨ d2 = "Neutral")
    (hl : d3 = "Insufficient data" ∨ d3 = "Bullish" ∨ d3 = "Bearish" ∨ d3 = "Neutral")
    (hov : lbl = "Strong Bullish" ∨ lbl = "Strong Bearish" ∨ lbl = "Moderate Bullish" ∨
      lbl = "Moderate Bearish" ∨ lbl = "Weak") :
    voteCore d1 d2 d3 lbl = specVote d1 d2 d3 lbl := by
  rcases hs with rfl | rfl | rfl | rfl <;> rcases hm with rfl | rfl | rfl | rfl <;>
  rcases hl with rfl | rfl | rfl | rfl <;> rcases hov with rfl | rfl | rfl | rfl | rfl <;>
  decide

/-- The source's sequential weighted vote agrees with the vote as the
specification words it, on the direction and momentum labels the code can
actually produce. -/
theorem getOverallDirection_eq_specVote (t : TrendTimeframes) (m : MomentumAnalysis)
    (hs : t.shortTerm.direction = "Insufficient data" ∨ t.shortTerm.direction = "Bullish" ∨
      t.shortTerm.direction = "Bearish" ∨ t.shortTerm.direction = "Neutral")
    (hm : t.mediumTerm.direction = "Insufficient data" ∨ t.mediumTerm.direction = "Bullish" ∨
      t.mediumTerm.direction = "Bearish" ∨ t.mediumTerm.direction = "Neutral")
    (hl : t.longTerm.direction = "Insufficient data" ∨ t.longTerm.direction = "Bullish" ∨
      t.longTerm.direction = "Bearish" ∨ t.longTerm.direction = "Neutral")
    (hov : m.priceMomentum.overall = "Strong Bullish" ∨
      m.priceMomentum.overall = "Strong Bearish" ∨
      m.priceMomentum.overall = "Moderate Bullish" ∨
      m.priceMomentum.overall = "Moderate Bearish" ∨
      m.priceMomentum.overall = "Weak") :
    getOverallDirection t m =
      specVote t.shortTerm.direction t.mediumTerm.direction t.longTerm.direction
        m.priceMomentum.overall :=
  (getOverallDirection_eq_voteCore t m).trans
    (voteCore_eq_specVote _ _ _ _ hs hm hl hov)

/-! ## Concrete inputs and helper accessors for the claims -/

def dummyTrendResult : TrendResult :=
  { direction := "", slope := 0, rSquared := 0, strength := none }

def dummyReport : TrendReport :=
  { agent := "", trendAnalysis := ⟨dummyTrendResult, dummyTrendResult, dummyTrendResult⟩,
    momentumAnalysis := ⟨⟨0, 0, 0, ""⟩, ⟨"", 0⟩, ⟨0, ""⟩⟩,
    trendStrength := ⟨none, ""⟩,
    breakoutAnalysis := ⟨"", none, none, none, none⟩,
    summary := "", direction := "", confidence := 0 }

/-- The report inside a successful result (used to name concrete witness
reports; the error branch is never hit at the chosen inputs). -/
def reportOf : Except PyErr TrendReport → TrendReport
  | .ok r => r
  | .error _ => dummyReport

def confidenceOf : Except PyErr TrendReport → Option ℚ
  | .ok r => some r.confidence
  | .error _ => none

/-- A 27-bar series whose first bar has `low > high`.  The first true
range is then negative, which drives one DX value to −100, the ADX-style
score to −50/7, and the final confidence below 0. -/
def c3Bars : List Bar :=
  [⟨100, 99, 1099, 100, 1000⟩] ++
  List.replicate 13 ⟨100, 100, 100, 100, 1000⟩ ++
  [⟨100, 1099, 100, -2795 / 3, 1000⟩,
   ⟨100, 1099, -899, -2795 / 3, 1000⟩,
   ⟨100, 1099, -899, -2795 / 3, 1000⟩] ++
  (List.range 10).map fun k => ⟨100, 1099, -899, (k : ℚ) + 1, 1000⟩

def c3Frame : DataFrame := ⟨["Open", "High", "Low", "Close", "Volume"], c3Bars⟩

def c3WitnessFrame : DataFrame :=
  ⟨["Open", "High", "Low", "Close", "Volume"],
   [⟨1, 2, 1, 1, 5⟩, ⟨1, 2, 1, 2, 5⟩, ⟨1, 2, 1, 3, 5⟩]⟩

def c3WitnessReport : TrendReport := reportOf (TrendAgent.analyze c3WitnessFrame)

def c7Frame : DataFrame :=
  ⟨["Open", "High", "Low", "Close", "Volume"],
   [⟨2, 3, 2, 2, 7⟩, ⟨2, 3, 2, 3, 7⟩, ⟨2, 3, 2, 4, 7⟩]⟩

def c7Report : TrendReport := reportOf (TrendAgent.analyze c7Frame)

def c2Frame : DataFrame :=
  ⟨["Open", "High", "Low", "Close", "Volume"],
   [⟨1, 2, 1, 1, 5⟩, ⟨1, 2, 1, 2, 5⟩]⟩

def c8ShortBars : List Bar := [⟨1, 2, 1, 1, 5⟩]

def c8LongBars : List Bar := List.replicate 20 ⟨1, 2, 1, 1, 5⟩

def c10Frame : DataFrame := ⟨["Open", "High", "Low", "Volume"], []⟩

/-! ## Theorems -/

/-- C2: the spec says `analyze` never throws on short input and instead
returns degraded `Insufficient`-labelled sub-results.  The sub-results are
indeed degraded as described, but `_generate_trend_summary` then reads the
`"strength"` key, which the insufficient-data trend dict does not have, so
`analyze` raises `KeyError("strength")` for every series shorter than 3
bars — the code contradicts the documented graceful degradation. -/
theorem c2_short_input_raises_key_error :
    TrendAgent.analyze c2Frame = .error (.keyError "strength") ∧
    (analyzeTrends c2Frame.rows).shortTerm =
      { direction := "Insufficient data", slope := 0, rSquared := 0, strength := none } ∧
    (analyzeTrends c2Frame.rows).mediumTerm =
      { direction := "Insufficient data", slope := 0, rSquared := 0, strength := none } ∧
    (analyzeTrends c2Frame.rows).longTerm =
      { direction := "Insufficient data", slope := 0, rSquared := 0, strength := none } :=
  ⟨rfl, rfl, rfl, rfl⟩

/-- C8: for fewer than 20 bars the trend-strength record is score 0 with
classification "Insufficient data"; for at least 20 bars the score is the
last value of the 14-period rolling mean of DX and the classification
follows the `> 50 / > 25 / > 15 / else Weak` thresholds. -/
theorem c8_trend_strength_is_adx (bars : List Bar) :
    (bars.length < 20 →
      calculateTrendStrength bars =
        { score := some 0, classification := "Insufficient data" }) ∧
    (20 ≤ bars.length →
      calculateTrendStrength bars =
        { score := ((rollingMean 14 (dxSeries bars)).getLast?).join,
          classification :=
            specStrengthClass (((rollingMean 14 (dxSeries bars)).getLast?).join) }) := by
  constructor
  · intro h
    unfold calculateTrendStrength
    rw [if_pos h]
  · intro h
    unfold calculateTrendStrength
    rw [if_neg (by omega)]
    rfl

/-- C8 witness: both branches of the theorem at concrete inputs. -/
theorem c8_trend_strength_is_adx_witness :
    calculateTrendStrength c8ShortBars =
      { score := some 0, classification := "Insufficient data" } ∧
    calculateTrendStrength c8LongBars =
      { score := ((rollingMean 14 (dxSeries c8LongBars)).getLast?).join,
        classification :=
          specStrengthClass (((rollingMean 14 (dxSeries c8LongBars)).getLast?).join) } :=
  ⟨(c8_trend_strength_is_adx c8ShortBars).1 (by decide),
   (c8_trend_strength_is_adx c8LongBars).2 (by decide)⟩

/-- C10: a DataFrame missing any of the required OHLCV columns makes
`TrendAgent.analyze` raise a `ValueError` naming the required columns. -/
theorem c10_missing_column_raises_value_error (df : DataFrame) (col : String)
    (hmem : col ∈ requiredColumns) (habs : col ∉ df.columns) :
    TrendAgent.analyze df = .error (.valueError
      "Invalid data format. Required columns: Open, High, Low, Close, Volume") := by
  have hv : validateData df = false := by
    unfold validateData
    refine List.all_eq_false.mpr ⟨col, hmem, ?_⟩
    simpa using habs
  unfold TrendAgent.analyze
  rw [hv]
  rfl

/-- C10 witness: a frame without the Close column. -/
theorem c10_missing_column_raises_value_error_witness :
    TrendAgent.analyze c10Frame = .error (.valueError
      "Invalid data format. Required columns: Open, High, Low, Close, Volume") :=
  c10_missing_column_raises_value_error c10Frame "Close" (by decide) (by decide)

set_option maxHeartbeats 8000000 in
set_option maxRecDepth 4000 in
/-- C3 counterexample: on a 27-bar series whose first bar has `low > high`,
`TrendAgent.analyze` returns confidence −3/140, which is below 0 — the
claimed clamp invariant `confidence ∈ [0,1]` fails because the source only
caps the sum above (`min(1.0, ...)`) and the strength term can be
negative. -/
theorem c3_confidence_counterexample :
    confidenceOf (TrendAgent.analyze c3Frame) = some (-3 / 140) ∧
    (-3 / 140 : ℚ) < 0 :=
  ⟨by decide, by norm_num⟩

/-- C3 (amended): the returned confidence equals the three-factor sum
capped above at 1 (exactly as the spec words the factors, with a NaN
score making the result 1); it is always ≤ 1, and it lies in [0,1]
whenever every bar of the input satisfies `low ≤ high`. -/
theorem c3_confidence_formula_and_bounds (df : DataFrame) (r : TrendReport)
    (h : TrendAgent.analyze df = .ok r) :
    r.confidence = specConfidence r.trendAnalysis.shortTerm.direction
      r.trendAnalysis.mediumTerm.direction r.trendAnalysis.longTerm.direction
      r.momentumAnalysis.priceMomentum.period1 r.momentumAnalysis.priceMomentum.period5
      r.trendStrength.score ∧
    r.confidence ≤ 1 ∧
    ((∀ b ∈ df.rows, b.low ≤ b.high) → 0 ≤ r.confidence) := by
  obtain ⟨hT, hM, hS, _, hC⟩ := analyze_ok_fields df r h
  refine ⟨?_, ?_, ?_⟩
  · rw [hC, hT, hM, hS]
    exact calculateConfidence_eq_spec _ _ _
  · rw [hC]
    exact calculateConfidence_le_one _ _ _
  · intro hlh
    rw [hC]
    exact calculateConfidence_nonneg _ _ _ (strengthScore_nonneg df.rows hlh)

/-- C3 witness: the amended theorem applied at a concrete 3-bar frame. -/
theorem c3_confidence_formula_and_bounds_witness :
    TrendAgent.analyze c3WitnessFrame = .ok c3WitnessReport ∧
    c3WitnessReport.confidence = specConfidence
      c3WitnessReport.trendAnalysis.shortTerm.direction
      c3WitnessReport.trendAnalysis.mediumTerm.direction
      c3WitnessReport.trendAnalysis.longTerm.direction
      c3WitnessReport.momentumAnalysis.priceMomentum.period1
      c3WitnessReport.momentumAnalysis.priceMomentum.period5
      c3WitnessReport.trendStrength.score ∧
    c3WitnessReport.confidence ≤ 1 ∧ 0 ≤ c3WitnessReport.confidence := by
  have h : TrendAgent.analyze c3WitnessFrame = .ok c3WitnessReport := rfl
  obtain ⟨h1, h2, h3⟩ := c3_confidence_formula_and_bounds c3WitnessFrame c3WitnessReport h
  exact ⟨h, h1, h2, h3 (by decide)⟩

/-- C7: the overall direction returned by a successful `analyze` is the
weighted vote of the spec (short/medium/long weights 0.5/0.3/0.2, flat 0.2
momentum bonus, strict winner, ties Neutral). -/
theorem c7_direction_is_weighted_vote (df : DataFrame) (r : TrendReport)
    (h : TrendAgent.analyze df = .ok r) :
    r.direction = specVote r.trendAnalysis.shortTerm.direction
      r.trendAnalysis.mediumTerm.direction r.trendAnalysis.longTerm.direction
      r.momentumAnalysis.priceMomentum.overall := by
  obtain ⟨hT, hM, _, hD, _⟩ := analyze_ok_fields df r h
  rw [hD, hT, hM]
  apply getOverallDirection_eq_specVote
  · exact calculateTrend_direction_cases (tailRows 10 df.rows)
  · exact calculateTrend_direction_cases (tailRows 20 df.rows)
  · exact calculateTrend_direction_cases df.rows
  · rcases calculatePriceMomentum_overall_shape df.rows with ⟨q, hq⟩
    have := classifyMomentum_label_cases q
    rw [← hq] at this
    exact this

/-- C7 witness: the vote theorem applied at a concrete 3-bar frame. -/
theorem c7_direction_is_weighted_vote_witness :
    TrendAgent.analyze c7Frame = .ok c7Report ∧
    c7Report.direction = specVote c7Report.trendAnalysis.shortTerm.direction
      c7Report.trendAnalysis.mediumTerm.direction
      c7Report.trendAnalysis.longTerm.direction
      c7Report.momentumAnalysis.priceMomentum.overall :=
  have h : TrendAgent.analyze c7Frame = .ok c7Report := rfl
  ⟨h, c7_direction_is_weighted_vote c7Frame c7Report h⟩

/-! ## DecisionAgent claims -/

/-- Field lookup on a successful DecisionAgent result. -/
def fieldOf (res : Except PyErr Json) (k : String) : Option Json :=
  match res with
  | .ok (.obj fs) => lookupField fs k
  | _ => none

/-- The field list `_parse_llm_response` hands back after validating the
service-failure fallback payload (confidence re-written by the clamp). -/
def apiValidatedJson (err : String) : Json :=
  .obj [("decision", .str "HOLD"),
        ("confidence", .num 0),
        ("justification", .str (apiErrorMessage err)),
        ("risk_level", .str "HIGH"),
        ("key_factors", .arr ((apiKeyFactors err).map Json.str)),
        ("stop_loss_suggestion", .num 0),
        ("take_profit_suggestion", .num 0)]

def c1Indicator : IndicatorReport := ⟨"mixed signals", "Bullish", "RSI neutral", "MACD cross"⟩

def c1Pattern : PatternReport := ⟨"uptrend channel", "clean chart"⟩

def c1Trend : TrendReportInput := ⟨"trend summary", "Bullish", 4 / 5⟩

/-- C1: the spec promises `analyze` never raises and every failure path
yields a HOLD/HIGH record.  But when the reasoning service returns the
text `"5"` (valid JSON, a bare number), the membership test
`"decision" not in 5` raises a `TypeError`, which the `except` clause
(`json.JSONDecodeError`, `ValueError`, `KeyError`) does not catch, and the
exception escapes to `analyze`'s caller. -/
theorem c1_service_text_escapes_as_type_error :
    DecisionAgent.analyze (fun _ => .ok "5") (fun _ => .ok (.num 5))
      c1Indicator c1Pattern c1Trend "TEST" =
    .error (.typeError "argument is not iterable") := rfl

def c4Response : Json :=
  .obj [("decision", .str "LONG"), ("confidence", .null),
        ("justification", .str "j"), ("risk_level", .str "LOW")]

/-- C4: the validator is claimed to coerce confidence to a float and clamp
it.  For the parsed response with `"confidence": null` (all four required
fields present), `float(None)` raises a `TypeError` that is not caught, so
the validator neither coerces nor rejects — the exception propagates. -/
theorem c4_null_confidence_raises_type_error :
    validateDecision c4Response =
      .error (.typeError "float() argument must be a string or a real number") := rfl

/-- C5: on any service failure `err`, the synthesized record is HOLD with
confidence 0 and risk HIGH; its key factors tag the failure kind
(`API_ERROR`, plus `MODEL_DECOMMISSIONED` when the error text indicates a
decommissioned model, in which case the justification names the supported
default model).  `loads` is Python's `json.loads`, assumed only to invert
the serialization of the internally produced fallback payload. -/
theorem c5_service_failure_yields_hold_record (ind : IndicatorReport)
    (pat : PatternReport) (tr : TrendReportInput) (symbol err : String)
    (behavior : String → Except String String) (loads : String → Except String Json)
    (hb : behavior (constructDecisionPrompt ind pat tr symbol) = .error err)
    (hl : loads (cleanResponse (queryLlm (.error err))) = .ok (apiFallbackJson err)) :
    fieldOf (DecisionAgent.analyze behavior loads ind pat tr symbol) "decision" =
      some (.str "HOLD") ∧
    fieldOf (DecisionAgent.analyze behavior loads ind pat tr symbol) "confidence" =
      some (.num 0) ∧
    fieldOf (DecisionAgent.analyze behavior loads ind pat tr symbol) "risk_level" =
      some (.str "HIGH") ∧
    fieldOf (DecisionAgent.analyze behavior loads ind pat tr symbol) "justification" =
      some (.str (apiErrorMessage err)) ∧
    fieldOf (DecisionAgent.analyze behavior loads ind pat tr symbol) "key_factors" =
      some (.arr ((apiKeyFactors err).map Json.str)) ∧
    (isDecommissionedErr err = true →
      strContains (apiErrorMessage err) defaultModelName = true) := by
  have hres : DecisionAgent.analyze behavior loads ind pat tr symbol =
      .ok (setKey (setKey (setKey (apiValidatedJson err) "agent" (.str "DecisionAgent"))
        "symbol" (.str symbol))
        "input_analyses" (.obj [("indicator", ind.toJson),
          ("pattern", pat.toJson), ("trend", tr.toJson)])) := by
    simp only [DecisionAgent.analyze]
    rw [hb]
    simp only [parseLlmResponse, parseAttempt]
    rw [hl]
    rfl
  rw [hres]
  refine ⟨rfl, rfl, rfl, rfl, rfl, ?_⟩
  intro hdec
  unfold apiErrorMessage
  rw [if_pos hdec]
  decide

def c5Err : String := "model_decommissioned: llama3-8b-8192 is no longer supported"

def c5Behavior : String → Except String String := fun _ => .error c5Err

def c5Loads : String → Except String Json := fun _ => .ok (apiFallbackJson c5Err)

def c5Ind : IndicatorReport := ⟨"si", "f", "e", "t"⟩

def c5Pat : PatternReport := ⟨"pd", "vs"⟩

def c5Trend : TrendReportInput := ⟨"ts", "Bullish", 1 / 2⟩

/-- C5 witness: a concrete decommissioned-model failure. -/
theorem c5_service_failure_yields_hold_record_witness :
    fieldOf (DecisionAgent.analyze c5Behavior c5Loads c5Ind c5Pat c5Trend "TEST") "decision" =
      some (.str "HOLD") ∧
    fieldOf (DecisionAgent.analyze c5Behavior c5Loads c5Ind c5Pat c5Trend "TEST") "confidence" =
      some (.num 0) ∧
    fieldOf (DecisionAgent.analyze c5Behavior c5Loads c5Ind c5Pat c5Trend "TEST") "risk_level" =
      some (.str "HIGH") ∧
    fieldOf (DecisionAgent.analyze c5Behavior c5Loads c5Ind c5Pat c5Trend "TEST")
      "justification" = some (.str (apiErrorMessage c5Err)) ∧
    fieldOf (DecisionAgent.analyze c5Behavior c5Loads c5Ind c5Pat c5Trend "TEST")
      "key_factors" = some (.arr ((apiKeyFactors c5Err).map Json.str)) ∧
    (isDecommissionedErr c5Err = true →
      strContains (apiErrorMessage c5Err) defaultModelName = true) :=
  c5_service_failure_yields_hold_record c5Ind c5Pat c5Trend "TEST" c5Err
    c5Behavior c5Loads rfl rfl

def c6Loads : String → Except String Json :=
  fun _ => .ok (.str "decision confidence justification risk_level")

/-- C6: every parse or validation failure is claimed to resolve to a HOLD
record.  But for the raw response `"decision confidence justification
risk_level"` (a valid JSON string), the substring-based required-field
loop passes and `decision_data["decision"]` then raises a `TypeError`
that the `except` clause does not catch, so no record is produced. -/
theorem c6_string_response_escapes_as_type_error :
    parseLlmResponse c6Loads "\"decision confidence justification risk_level\"" =
      .error (.typeError "value is not subscriptable by a string key") := rfl

def c9Response : Json :=
  .obj [("decision", .str "HOLD"), ("confidence", .num (1 / 2)),
        ("justification", .str "j"), ("risk_level", .str "LOW"),
        ("stop_loss_suggestion", .num (-5))]

/-- C9 counterexample: a response carrying `"stop_loss_suggestion": -5`
validates successfully and the record keeps the negative value — the
claimed non-negativity of the numeric suggestions is not enforced. -/
theorem c9_negative_stop_loss_counterexample :
    fieldOf (validateDecision c9Response) "stop_loss_suggestion" = some (.num (-5)) ∧
    ((-5 : ℚ) < 0) :=
  ⟨rfl, by norm_num⟩

/-- C9 (amended): the numeric suggestions default to 0 exactly when their
keys are absent from the parsed response; when present they are passed
through entirely unvalidated — any JSON value, including negative
numbers, survives into the record. -/
theorem c9_suggestions_default_only_when_absent (conf : ℚ) (just : String) (s t : Json) :
    fieldOf (validateDecision (.obj [("decision", .str "HOLD"),
        ("confidence", .num conf), ("justification", .str just),
        ("risk_level", .str "LOW")])) "stop_loss_suggestion" = some (.num 0) ∧
    fieldOf (validateDecision (.obj [("decision", .str "HOLD"),
        ("confidence", .num conf), ("justification", .str just),
        ("risk_level", .str "LOW")])) "take_profit_suggestion" = some (.num 0) ∧
    fieldOf (validateDecision (.obj [("decision", .str "HOLD"),
        ("confidence", .num conf), ("justification", .str just),
        ("risk_level", .str "LOW"), ("stop_loss_suggestion", s),
        ("take_profit_suggestion", t)])) "stop_loss_suggestion" = some s ∧
    fieldOf (validateDecision (.obj [("decision", .str "HOLD"),
        ("confidence", .num conf), ("justification", .str just),
        ("risk_level", .str "LOW"), ("stop_loss_suggestion", s),
        ("take_profit_suggestion", t)])) "take_profit_suggestion" = some t :=
  ⟨rfl, rfl, rfl, rfl⟩
